import Mathlib

/-!
# DataFlash log catalog (libraries/DataFlash/DataFlash.h)

A shallow embedding of the DataFlash header: the packed record structs, the
format-character table, the descriptor catalog built by the macros
LOG_BASE_STRUCTURES and LOG_EXTRA_STRUCTURES, the message-id constants, the
packet header macros and the inline members of DataFlash_Class.
-/

namespace DataFlash

/-! ## Primitive C types and packed structs -/

/-- The C types that occur as members of the record structs. -/
inductive CType where
  | int8_t
  | uint8_t
  | int16_t
  | uint16_t
  | int32_t
  | uint32_t
  | int64_t
  | uint64_t
  | float
  | double
  | charArray (n : Nat)
  deriving DecidableEq, Repr

/-- Size in bytes of a member of the given type (sizeof). -/
def CType.sizeof : CType → Nat
  | .int8_t => 1
  | .uint8_t => 1
  | .int16_t => 2
  | .uint16_t => 2
  | .int32_t => 4
  | .uint32_t => 4
  | .int64_t => 8
  | .uint64_t => 8
  | .float => 4
  | .double => 8
  | .charArray n => n

/-- One member declaration of a struct: its type and its name. -/
structure Member where
  type : CType
  name : String
  deriving DecidableEq, Repr

/-- A struct is the list of its members in declaration order. -/
abbrev Struct := List Member

/-- Size of a PACKED struct: members are laid out back to back without padding.
The macro PACKED comes from AP_Common.h and is taken to be the packed attribute. -/
def sizeofPacked (s : Struct) : Nat :=
  (s.map fun m => m.type.sizeof).sum

/-- Byte offset of the k-th member of a PACKED struct. -/
def offsetOf (s : Struct) (k : Nat) : Nat :=
  sizeofPacked (s.take k)

/-- Narrowing of a value to uint8_t. -/
def toUint8 (n : Nat) : Nat := n % 256

/-! ## Packet header -/

def HEAD_BYTE1 : Nat := 0xA3
def HEAD_BYTE2 : Nat := 0x95

/-- The macro LOG_PACKET_HEADER: `uint8_t head1, head2, msgid;`. -/
def LOG_PACKET_HEADER : Struct :=
  [⟨.uint8_t, "head1"⟩, ⟨.uint8_t, "head2"⟩, ⟨.uint8_t, "msgid"⟩]

/-- The member struct DataFlash_Class::log_Header: `uint8_t head1, head2, msgid;`.
It is not declared PACKED; its members are single bytes, so it has no padding. -/
def log_Header : Struct :=
  [⟨.uint8_t, "head1"⟩, ⟨.uint8_t, "head2"⟩, ⟨.uint8_t, "msgid"⟩]

/-- Values of the three header members of a record. -/
structure HeaderInit where
  head1 : Nat
  head2 : Nat
  msgid : Nat
  deriving DecidableEq, Repr

/-- The macro LOG_PACKET_HEADER_INIT(id):
`head1 : HEAD_BYTE1, head2 : HEAD_BYTE2, msgid : id`, each stored in a uint8_t. -/
def LOG_PACKET_HEADER_INIT (id : Nat) : HeaderInit :=
  { head1 := toUint8 HEAD_BYTE1, head2 := toUint8 HEAD_BYTE2, msgid := toUint8 id }

/-- The header as it lies in memory: members in declaration order. -/
def HeaderInit.bytes (h : HeaderInit) : List Nat := [h.head1, h.head2, h.msgid]

/-! ## Record structs -/

def log_Format : Struct := LOG_PACKET_HEADER ++
  [⟨.uint8_t, "type"⟩, ⟨.uint8_t, "length"⟩, ⟨.charArray 4, "name"⟩,
   ⟨.charArray 16, "format"⟩, ⟨.charArray 64, "labels"⟩]

def log_Parameter : Struct := LOG_PACKET_HEADER ++
  [⟨.uint64_t, "time_us"⟩, ⟨.charArray 16, "name"⟩, ⟨.float, "value"⟩]

def log_GPS : Struct := LOG_PACKET_HEADER ++
  [⟨.uint64_t, "time_us"⟩, ⟨.uint8_t, "status"⟩, ⟨.uint32_t, "gps_week_ms"⟩,
   ⟨.uint16_t, "gps_week"⟩, ⟨.uint8_t, "num_sats"⟩, ⟨.uint16_t, "hdop"⟩,
   ⟨.int32_t, "latitude"⟩, ⟨.int32_t, "longitude"⟩, ⟨.int32_t, "rel_altitude"⟩,
   ⟨.int32_t, "altitude"⟩, ⟨.uint32_t, "ground_speed"⟩, ⟨.int32_t, "ground_course"⟩,
   ⟨.float, "vel_z"⟩]

def log_GPS2 : Struct := LOG_PACKET_HEADER ++
  [⟨.uint64_t, "time_us"⟩, ⟨.uint8_t, "status"⟩, ⟨.uint32_t, "gps_week_ms"⟩,
   ⟨.uint16_t, "gps_week"⟩, ⟨.uint8_t, "num_sats"⟩, ⟨.uint16_t, "hdop"⟩,
   ⟨.int32_t, "latitude"⟩, ⟨.int32_t, "longitude"⟩, ⟨.int32_t, "altitude"⟩,
   ⟨.uint32_t, "ground_speed"⟩, ⟨.int32_t, "ground_course"⟩, ⟨.float, "vel_z"⟩,
   ⟨.uint8_t, "dgps_numch"⟩, ⟨.uint32_t, "dgps_age"⟩]

def log_Message : Struct := LOG_PACKET_HEADER ++
  [⟨.uint64_t, "time_us"⟩, ⟨.charArray 64, "msg"⟩]

def log_IMU : Struct := LOG_PACKET_HEADER ++
  [⟨.uint64_t, "time_us"⟩, ⟨.float, "gyro_x"⟩, ⟨.float, "gyro_y"⟩, ⟨.float, "gyro_z"⟩,
   ⟨.float, "accel_x"⟩, ⟨.float, "accel_y"⟩, ⟨.float, "accel_z"⟩, ⟨.uint32_t, "gyro_error"⟩,
   ⟨.uint32_t, "accel_error"⟩, ⟨.float, "temperature"⟩, ⟨.uint8_t, "gyro_health"⟩,
   ⟨.uint8_t, "accel_health"⟩]

def log_RCIN : Struct := LOG_PACKET_HEADER ++
  [⟨.uint64_t, "time_us"⟩, ⟨.uint16_t, "chan1"⟩, ⟨.uint16_t, "chan2"⟩, ⟨.uint16_t, "chan3"⟩,
   ⟨.uint16_t, "chan4"⟩, ⟨.uint16_t, "chan5"⟩, ⟨.uint16_t, "chan6"⟩, ⟨.uint16_t, "chan7"⟩,
   ⟨.uint16_t, "chan8"⟩, ⟨.uint16_t, "chan9"⟩, ⟨.uint16_t, "chan10"⟩, ⟨.uint16_t, "chan11"⟩,
   ⟨.uint16_t, "chan12"⟩, ⟨.uint16_t, "chan13"⟩, ⟨.uint16_t, "chan14"⟩]

def log_RCOUT : Struct := LOG_PACKET_HEADER ++
  [⟨.uint64_t, "time_us"⟩, ⟨.uint16_t, "chan1"⟩, ⟨.uint16_t, "chan2"⟩, ⟨.uint16_t, "chan3"⟩,
   ⟨.uint16_t, "chan4"⟩, ⟨.uint16_t, "chan5"⟩, ⟨.uint16_t, "chan6"⟩, ⟨.uint16_t, "chan7"⟩,
   ⟨.uint16_t, "chan8"⟩, ⟨.uint16_t, "chan9"⟩, ⟨.uint16_t, "chan10"⟩, ⟨.uint16_t, "chan11"⟩,
   ⟨.uint16_t, "chan12"⟩]

def log_BARO : Struct := LOG_PACKET_HEADER ++
  [⟨.uint64_t, "time_us"⟩, ⟨.float, "altitude"⟩, ⟨.float, "pressure"⟩,
   ⟨.int16_t, "temperature"⟩, ⟨.float, "climbrate"⟩]

def log_AHRS : Struct := LOG_PACKET_HEADER ++
  [⟨.uint64_t, "time_us"⟩, ⟨.int16_t, "roll"⟩, ⟨.int16_t, "pitch"⟩, ⟨.uint16_t, "yaw"⟩,
   ⟨.float, "alt"⟩, ⟨.int32_t, "lat"⟩, ⟨.int32_t, "lng"⟩]

def log_POS : Struct := LOG_PACKET_HEADER ++
  [⟨.uint64_t, "time_us"⟩, ⟨.int32_t, "lat"⟩, ⟨.int32_t, "lng"⟩, ⟨.float, "alt"⟩,
   ⟨.float, "rel_alt"⟩]

def log_POWR : Struct := LOG_PACKET_HEADER ++
  [⟨.uint64_t, "time_us"⟩, ⟨.uint16_t, "Vcc"⟩, ⟨.uint16_t, "Vservo"⟩, ⟨.uint16_t, "flags"⟩]

def log_EKF1 : Struct := LOG_PACKET_HEADER ++
  [⟨.uint64_t, "time_us"⟩, ⟨.int16_t, "roll"⟩, ⟨.int16_t, "pitch"⟩, ⟨.uint16_t, "yaw"⟩,
   ⟨.float, "velN"⟩, ⟨.float, "velE"⟩, ⟨.float, "velD"⟩, ⟨.float, "posN"⟩, ⟨.float, "posE"⟩,
   ⟨.float, "posD"⟩, ⟨.int16_t, "gyrX"⟩, ⟨.int16_t, "gyrY"⟩, ⟨.int16_t, "gyrZ"⟩]

def log_EKF2 : Struct := LOG_PACKET_HEADER ++
  [⟨.uint64_t, "time_us"⟩, ⟨.int8_t, "Ratio"⟩, ⟨.int8_t, "AZ1bias"⟩, ⟨.int8_t, "AZ2bias"⟩,
   ⟨.int16_t, "windN"⟩, ⟨.int16_t, "windE"⟩, ⟨.int16_t, "magN"⟩, ⟨.int16_t, "magE"⟩,
   ⟨.int16_t, "magD"⟩, ⟨.int16_t, "magX"⟩, ⟨.int16_t, "magY"⟩, ⟨.int16_t, "magZ"⟩]

def log_EKF3 : Struct := LOG_PACKET_HEADER ++
  [⟨.uint64_t, "time_us"⟩, ⟨.int16_t, "innovVN"⟩, ⟨.int16_t, "innovVE"⟩,
   ⟨.int16_t, "innovVD"⟩, ⟨.int16_t, "innovPN"⟩, ⟨.int16_t, "innovPE"⟩,
   ⟨.int16_t, "innovPD"⟩, ⟨.int16_t, "innovMX"⟩, ⟨.int16_t, "innovMY"⟩,
   ⟨.int16_t, "innovMZ"⟩, ⟨.int16_t, "innovVT"⟩]

def log_EKF4 : Struct := LOG_PACKET_HEADER ++
  [⟨.uint64_t, "time_us"⟩, ⟨.int16_t, "sqrtvarV"⟩, ⟨.int16_t, "sqrtvarP"⟩,
   ⟨.int16_t, "sqrtvarH"⟩, ⟨.int16_t, "sqrtvarMX"⟩, ⟨.int16_t, "sqrtvarMY"⟩,
   ⟨.int16_t, "sqrtvarMZ"⟩, ⟨.int16_t, "sqrtvarVT"⟩, ⟨.int8_t, "offsetNorth"⟩,
   ⟨.int8_t, "offsetEast"⟩, ⟨.uint8_t, "faults"⟩, ⟨.uint8_t, "timeouts"⟩,
   ⟨.uint16_t, "solution"⟩]

def log_EKF5 : Struct := LOG_PACKET_HEADER ++
  [⟨.uint64_t, "time_us"⟩, ⟨.uint8_t, "normInnov"⟩, ⟨.int16_t, "FIX"⟩, ⟨.int16_t, "FIY"⟩,
   ⟨.int16_t, "AFI"⟩, ⟨.int16_t, "HAGL"⟩, ⟨.int16_t, "offset"⟩, ⟨.int16_t, "RI"⟩,
   ⟨.uint16_t, "meaRng"⟩, ⟨.uint16_t, "errHAGL"⟩]

def log_Cmd : Struct := LOG_PACKET_HEADER ++
  [⟨.uint64_t, "time_us"⟩, ⟨.uint16_t, "command_total"⟩, ⟨.uint16_t, "sequence"⟩,
   ⟨.uint16_t, "command"⟩, ⟨.float, "param1"⟩, ⟨.float, "param2"⟩, ⟨.float, "param3"⟩,
   ⟨.float, "param4"⟩, ⟨.float, "latitude"⟩, ⟨.float, "longitude"⟩, ⟨.float, "altitude"⟩]

def log_Radio : Struct := LOG_PACKET_HEADER ++
  [⟨.uint64_t, "time_us"⟩, ⟨.uint8_t, "rssi"⟩, ⟨.uint8_t, "remrssi"⟩, ⟨.uint8_t, "txbuf"⟩,
   ⟨.uint8_t, "noise"⟩, ⟨.uint8_t, "remnoise"⟩, ⟨.uint16_t, "rxerrors"⟩,
   ⟨.uint16_t, "fixed"⟩]

def log_Camera : Struct := LOG_PACKET_HEADER ++
  [⟨.uint64_t, "time_us"⟩, ⟨.uint32_t, "gps_time"⟩, ⟨.uint16_t, "gps_week"⟩,
   ⟨.int32_t, "latitude"⟩, ⟨.int32_t, "longitude"⟩, ⟨.int32_t, "altitude"⟩,
   ⟨.int32_t, "altitude_rel"⟩, ⟨.int16_t, "roll"⟩, ⟨.int16_t, "pitch"⟩, ⟨.uint16_t, "yaw"⟩]

def log_Attitude : Struct := LOG_PACKET_HEADER ++
  [⟨.uint64_t, "time_us"⟩, ⟨.int16_t, "control_roll"⟩, ⟨.int16_t, "roll"⟩,
   ⟨.int16_t, "control_pitch"⟩, ⟨.int16_t, "pitch"⟩, ⟨.uint16_t, "control_yaw"⟩,
   ⟨.uint16_t, "yaw"⟩, ⟨.uint16_t, "error_rp"⟩, ⟨.uint16_t, "error_yaw"⟩]

def log_PID : Struct := LOG_PACKET_HEADER ++
  [⟨.uint64_t, "time_us"⟩, ⟨.float, "desired"⟩, ⟨.float, "P"⟩, ⟨.float, "I"⟩, ⟨.float, "D"⟩,
   ⟨.float, "FF"⟩, ⟨.float, "AFF"⟩]

def log_Current : Struct := LOG_PACKET_HEADER ++
  [⟨.uint64_t, "time_us"⟩, ⟨.int16_t, "throttle"⟩, ⟨.int16_t, "battery_voltage"⟩,
   ⟨.int16_t, "current_amps"⟩, ⟨.uint16_t, "board_voltage"⟩, ⟨.float, "current_total"⟩,
   ⟨.int16_t, "battery2_voltage"⟩]

def log_Compass : Struct := LOG_PACKET_HEADER ++
  [⟨.uint64_t, "time_us"⟩, ⟨.int16_t, "mag_x"⟩, ⟨.int16_t, "mag_y"⟩, ⟨.int16_t, "mag_z"⟩,
   ⟨.int16_t, "offset_x"⟩, ⟨.int16_t, "offset_y"⟩, ⟨.int16_t, "offset_z"⟩,
   ⟨.int16_t, "motor_offset_x"⟩, ⟨.int16_t, "motor_offset_y"⟩, ⟨.int16_t, "motor_offset_z"⟩,
   ⟨.uint8_t, "health"⟩]

def log_Mode : Struct := LOG_PACKET_HEADER ++
  [⟨.uint64_t, "time_us"⟩, ⟨.uint8_t, "mode"⟩, ⟨.uint8_t, "mode_num"⟩]

def log_TERRAIN : Struct := LOG_PACKET_HEADER ++
  [⟨.uint64_t, "time_us"⟩, ⟨.uint8_t, "status"⟩, ⟨.int32_t, "lat"⟩, ⟨.int32_t, "lng"⟩,
   ⟨.uint16_t, "spacing"⟩, ⟨.float, "terrain_height"⟩, ⟨.float, "current_height"⟩,
   ⟨.uint16_t, "pending"⟩, ⟨.uint16_t, "loaded"⟩]

def log_Ubx1 : Struct := LOG_PACKET_HEADER ++
  [⟨.uint64_t, "time_us"⟩, ⟨.uint8_t, "instance"⟩, ⟨.uint16_t, "noisePerMS"⟩,
   ⟨.uint8_t, "jamInd"⟩, ⟨.uint8_t, "aPower"⟩, ⟨.uint16_t, "agcCnt"⟩]

def log_Ubx2 : Struct := LOG_PACKET_HEADER ++
  [⟨.uint64_t, "time_us"⟩, ⟨.uint8_t, "instance"⟩, ⟨.int8_t, "ofsI"⟩, ⟨.uint8_t, "magI"⟩,
   ⟨.int8_t, "ofsQ"⟩, ⟨.uint8_t, "magQ"⟩]

def log_Ubx3 : Struct := LOG_PACKET_HEADER ++
  [⟨.uint64_t, "time_us"⟩, ⟨.uint8_t, "instance"⟩, ⟨.float, "hAcc"⟩, ⟨.float, "vAcc"⟩,
   ⟨.float, "sAcc"⟩]

def log_GPS_RAW : Struct := LOG_PACKET_HEADER ++
  [⟨.uint64_t, "time_us"⟩, ⟨.int32_t, "iTOW"⟩, ⟨.int16_t, "week"⟩, ⟨.uint8_t, "numSV"⟩,
   ⟨.uint8_t, "sv"⟩, ⟨.double, "cpMes"⟩, ⟨.double, "prMes"⟩, ⟨.float, "doMes"⟩,
   ⟨.int8_t, "mesQI"⟩, ⟨.int8_t, "cno"⟩, ⟨.uint8_t, "lli"⟩]

def log_Esc : Struct := LOG_PACKET_HEADER ++
  [⟨.uint64_t, "time_us"⟩, ⟨.int16_t, "rpm"⟩, ⟨.int16_t, "voltage"⟩, ⟨.int16_t, "current"⟩,
   ⟨.int16_t, "temperature"⟩]

def log_AIRSPEED : Struct := LOG_PACKET_HEADER ++
  [⟨.uint64_t, "time_us"⟩, ⟨.float, "airspeed"⟩, ⟨.float, "diffpressure"⟩,
   ⟨.int16_t, "temperature"⟩, ⟨.float, "rawpressure"⟩, ⟨.float, "offset"⟩]

def log_ACCEL : Struct := LOG_PACKET_HEADER ++
  [⟨.uint64_t, "time_us"⟩, ⟨.uint64_t, "sample_us"⟩, ⟨.float, "AccX"⟩, ⟨.float, "AccY"⟩,
   ⟨.float, "AccZ"⟩]

def log_GYRO : Struct := LOG_PACKET_HEADER ++
  [⟨.uint64_t, "time_us"⟩, ⟨.uint64_t, "sample_us"⟩, ⟨.float, "GyrX"⟩, ⟨.float, "GyrY"⟩,
   ⟨.float, "GyrZ"⟩]

/-- Every packed record struct the header declares, in the order of declaration. -/
def RECORD_STRUCTS : List Struct :=
  [log_Format, log_Parameter, log_GPS, log_GPS2, log_Message, log_IMU, log_RCIN, log_RCOUT,
   log_BARO, log_AHRS, log_POS, log_POWR, log_EKF1, log_EKF2, log_EKF3, log_EKF4, log_EKF5,
   log_Cmd, log_Radio, log_Camera, log_Attitude, log_PID, log_Current, log_Compass, log_Mode,
   log_TERRAIN, log_Ubx1, log_Ubx2, log_Ubx3, log_GPS_RAW, log_Esc, log_AIRSPEED, log_ACCEL,
   log_GYRO]

/-! ## Format characters -/

/-- The table "Format characters in the format string for binary log messages":
the C type each character stands for. The characters c, C, e, E carry a value
times 100, L a latitude/longitude and M a flight mode; their stored type is the
one listed. -/
def formatCharType : Char → Option CType
  | 'b' => some .int8_t
  | 'B' => some .uint8_t
  | 'h' => some .int16_t
  | 'H' => some .uint16_t
  | 'i' => some .int32_t
  | 'I' => some .uint32_t
  | 'f' => some .float
  | 'd' => some .double
  | 'n' => some (.charArray 4)
  | 'N' => some (.charArray 16)
  | 'Z' => some (.charArray 64)
  | 'c' => some .int16_t
  | 'C' => some .uint16_t
  | 'e' => some .int32_t
  | 'E' => some .uint32_t
  | 'L' => some .int32_t
  | 'M' => some .uint8_t
  | 'q' => some .int64_t
  | 'Q' => some .uint64_t
  | _ => none

/-- The characters listed in the format-character table, in table order. -/
def FORMAT_CHARS : List Char :=
  ['b', 'B', 'h', 'H', 'i', 'I', 'f', 'd', 'n', 'N', 'Z', 'c', 'C', 'e', 'E', 'L', 'M', 'q', 'Q']

/-- Width in bytes of the field a format character stands for; 0 for a
character outside the table. -/
def formatCharWidth (c : Char) : Nat :=
  match formatCharType c with
  | some t => t.sizeof
  | none => 0

/-- Sum of the field widths of a format string. -/
def formatWidth (format : String) : Nat :=
  (format.toList.map formatCharWidth).sum

/-! ## Message-type constants -/

def LOG_FORMAT_MSG : Nat := 128
def LOG_PARAMETER_MSG : Nat := 129
def LOG_GPS_MSG : Nat := 130
def LOG_IMU_MSG : Nat := 131
def LOG_MESSAGE_MSG : Nat := 132
def LOG_RCIN_MSG : Nat := 133
def LOG_RCOUT_MSG : Nat := 134
def LOG_IMU2_MSG : Nat := 135
def LOG_BARO_MSG : Nat := 136
def LOG_POWR_MSG : Nat := 137
def LOG_AHR2_MSG : Nat := 138
def LOG_SIMSTATE_MSG : Nat := 139
def LOG_EKF1_MSG : Nat := 140
def LOG_EKF2_MSG : Nat := 141
def LOG_EKF3_MSG : Nat := 142
def LOG_EKF4_MSG : Nat := 143
def LOG_GPS2_MSG : Nat := 144
def LOG_CMD_MSG : Nat := 145
def LOG_RADIO_MSG : Nat := 146
def LOG_ATRP_MSG : Nat := 147
def LOG_CAMERA_MSG : Nat := 148
def LOG_IMU3_MSG : Nat := 149
def LOG_TERRAIN_MSG : Nat := 150
def LOG_UBX1_MSG : Nat := 151
def LOG_UBX2_MSG : Nat := 152
def LOG_UBX3_MSG : Nat := 153
def LOG_ESC1_MSG : Nat := 154
def LOG_ESC2_MSG : Nat := 155
def LOG_ESC3_MSG : Nat := 156
def LOG_ESC4_MSG : Nat := 157
def LOG_ESC5_MSG : Nat := 158
def LOG_ESC6_MSG : Nat := 159
def LOG_ESC7_MSG : Nat := 160
def LOG_ESC8_MSG : Nat := 161
def LOG_EKF5_MSG : Nat := 162
def LOG_BAR2_MSG : Nat := 163
def LOG_ARSP_MSG : Nat := 164
def LOG_ATTITUDE_MSG : Nat := 165
def LOG_CURRENT_MSG : Nat := 166
def LOG_COMPASS_MSG : Nat := 167
def LOG_COMPASS2_MSG : Nat := 168
def LOG_COMPASS3_MSG : Nat := 169
def LOG_MODE_MSG : Nat := 170
def LOG_GPS_RAW_MSG : Nat := 171
def LOG_ACC1_MSG : Nat := 172
def LOG_ACC2_MSG : Nat := 173
def LOG_ACC3_MSG : Nat := 174
def LOG_GYR1_MSG : Nat := 175
def LOG_GYR2_MSG : Nat := 176
def LOG_GYR3_MSG : Nat := 177
def LOG_POS_MSG : Nat := 178
def LOG_PIDR_MSG : Nat := 179
def LOG_PIDP_MSG : Nat := 180
def LOG_PIDY_MSG : Nat := 181
def LOG_PIDA_MSG : Nat := 182

/-- Every LOG_*_MSG constant the header defines, in the order of definition. -/
def LOG_MSG_IDS : List Nat :=
  [LOG_FORMAT_MSG, LOG_PARAMETER_MSG, LOG_GPS_MSG, LOG_IMU_MSG, LOG_MESSAGE_MSG, LOG_RCIN_MSG,
   LOG_RCOUT_MSG, LOG_IMU2_MSG, LOG_BARO_MSG, LOG_POWR_MSG, LOG_AHR2_MSG, LOG_SIMSTATE_MSG,
   LOG_EKF1_MSG, LOG_EKF2_MSG, LOG_EKF3_MSG, LOG_EKF4_MSG, LOG_GPS2_MSG, LOG_CMD_MSG,
   LOG_RADIO_MSG, LOG_ATRP_MSG, LOG_CAMERA_MSG, LOG_IMU3_MSG, LOG_TERRAIN_MSG, LOG_UBX1_MSG,
   LOG_UBX2_MSG, LOG_UBX3_MSG, LOG_ESC1_MSG, LOG_ESC2_MSG, LOG_ESC3_MSG, LOG_ESC4_MSG,
   LOG_ESC5_MSG, LOG_ESC6_MSG, LOG_ESC7_MSG, LOG_ESC8_MSG, LOG_EKF5_MSG, LOG_BAR2_MSG,
   LOG_ARSP_MSG, LOG_ATTITUDE_MSG, LOG_CURRENT_MSG, LOG_COMPASS_MSG, LOG_COMPASS2_MSG,
   LOG_COMPASS3_MSG, LOG_MODE_MSG, LOG_GPS_RAW_MSG, LOG_ACC1_MSG, LOG_ACC2_MSG, LOG_ACC3_MSG,
   LOG_GYR1_MSG, LOG_GYR2_MSG, LOG_GYR3_MSG, LOG_POS_MSG, LOG_PIDR_MSG, LOG_PIDP_MSG,
   LOG_PIDY_MSG, LOG_PIDA_MSG]

/-! ## The descriptor catalog -/

/-- The struct LogStructure, "structure used to define logging format":
`uint8_t msg_type; uint8_t msg_len; const char name[5]; const char format[16];
const char labels[64];`. -/
structure LogStructure where
  msg_type : Nat
  msg_len : Nat
  name : String
  format : String
  labels : String
  deriving DecidableEq, Repr

/-- One brace initialiser `{ ID, sizeof(record), "name", "format", "labels" }` of
the catalog macros, as written: the id constant, the record struct whose size
is taken, and the three string literals. -/
structure Initialiser where
  id : Nat
  record : Struct
  name : String
  format : String
  labels : String
  deriving DecidableEq, Repr

/-- The LogStructure an initialiser builds: the id and the struct size are
stored in uint8_t members. -/
def Initialiser.toLogStructure (i : Initialiser) : LogStructure :=
  { msg_type := toUint8 i.id
    msg_len := toUint8 (sizeofPacked i.record)
    name := i.name
    format := i.format
    labels := i.labels }

/-- The members of a record struct after the three header members. -/
def payload (s : Struct) : Struct := s.drop LOG_PACKET_HEADER.length

/-- Number of comma-separated labels of a labels string. -/
def labelCount (labels : String) : Nat :=
  labels.toList.count ',' + 1

/-- The macro LOG_BASE_STRUCTURES: messages for all boards. -/
def LOG_BASE_STRUCTURES : List Initialiser :=
  [⟨LOG_FORMAT_MSG, log_Format,
     "FMT", "BBnNZ", "Type,Length,Name,Format,Columns"⟩,
   ⟨LOG_PARAMETER_MSG, log_Parameter,
     "PARM", "QNf", "TimeUS,Name,Value"⟩,
   ⟨LOG_GPS_MSG, log_GPS,
     "GPS", "QBIHBcLLeeEef", "TimeUS,Status,GMS,GWk,NSats,HDop,Lat,Lng,RAlt,Alt,Spd,GCrs,VZ"⟩,
   ⟨LOG_IMU_MSG, log_IMU,
     "IMU", "QffffffIIfBB", "TimeUS,GyrX,GyrY,GyrZ,AccX,AccY,AccZ,ErrG,ErrA,Temp,GyHlt,AcHlt"⟩,
   ⟨LOG_MESSAGE_MSG, log_Message,
     "MSG", "QZ", "TimeUS,Message"⟩,
   ⟨LOG_RCIN_MSG, log_RCIN,
     "RCIN", "Qhhhhhhhhhhhhhh", "TimeUS,C1,C2,C3,C4,C5,C6,C7,C8,C9,C10,C11,C12,C13,C14"⟩,
   ⟨LOG_RCOUT_MSG, log_RCOUT,
     "RCOU", "Qhhhhhhhhhhhh", "TimeUS,Ch1,Ch2,Ch3,Ch4,Ch5,Ch6,Ch7,Ch8,Ch9,Ch10,Ch11,Ch12"⟩,
   ⟨LOG_BARO_MSG, log_BARO,
     "BARO", "Qffcf", "TimeUS,Alt,Press,Temp,CRt"⟩,
   ⟨LOG_POWR_MSG, log_POWR,
     "POWR", "QCCH", "TimeUS,Vcc,VServo,Flags"⟩,
   ⟨LOG_CMD_MSG, log_Cmd,
     "CMD", "QHHHfffffff", "TimeUS,CTot,CNum,CId,Prm1,Prm2,Prm3,Prm4,Lat,Lng,Alt"⟩,
   ⟨LOG_RADIO_MSG, log_Radio,
     "RAD", "QBBBBBHH", "TimeUS,RSSI,RemRSSI,TxBuf,Noise,RemNoise,RxErrors,Fixed"⟩,
   ⟨LOG_CAMERA_MSG, log_Camera,
     "CAM", "QIHLLeeccC", "TimeUS,GPSTime,GPSWeek,Lat,Lng,Alt,RelAlt,Roll,Pitch,Yaw"⟩,
   ⟨LOG_ARSP_MSG, log_AIRSPEED,
     "ARSP", "Qffcff", "TimeUS,Airspeed,DiffPress,Temp,RawPress,Offset"⟩,
   ⟨LOG_CURRENT_MSG, log_Current,
     "CURR", "QhhhHfh", "TimeUS,Throttle,Volt,Curr,Vcc,CurrTot,Volt2"⟩,
   ⟨LOG_ATTITUDE_MSG, log_Attitude,
     "ATT", "QccccCCCC", "TimeUS,DesRoll,Roll,DesPitch,Pitch,DesYaw,Yaw,ErrRP,ErrYaw"⟩,
   ⟨LOG_COMPASS_MSG, log_Compass,
     "MAG", "QhhhhhhhhhB", "TimeUS,MagX,MagY,MagZ,OfsX,OfsY,OfsZ,MOfsX,MOfsY,MOfsZ,Health"⟩,
   ⟨LOG_MODE_MSG, log_Mode,
     "MODE", "QMB", "TimeUS,Mode,ModeNum"⟩]

/-- The macro LOG_EXTRA_STRUCTURES: messages for more advanced boards. -/
def LOG_EXTRA_STRUCTURES : List Initialiser :=
  [⟨LOG_GPS2_MSG, log_GPS2,
     "GPS2", "QBIHBcLLeEefBI", "TimeUS,Status,GMS,GWk,NSats,HDp,Lat,Lng,Alt,Spd,GCrs,VZ,DSc,DAg"⟩,
   ⟨LOG_IMU2_MSG, log_IMU,
     "IMU2", "QffffffIIfBB", "TimeUS,GyrX,GyrY,GyrZ,AccX,AccY,AccZ,ErrG,ErrA,Temp,GyHlt,AcHlt"⟩,
   ⟨LOG_IMU3_MSG, log_IMU,
     "IMU3", "QffffffIIfBB", "TimeUS,GyrX,GyrY,GyrZ,AccX,AccY,AccZ,ErrG,ErrA,Temp,GyHlt,AcHlt"⟩,
   ⟨LOG_AHR2_MSG, log_AHRS,
     "AHR2", "QccCfLL", "TimeUS,Roll,Pitch,Yaw,Alt,Lat,Lng"⟩,
   ⟨LOG_POS_MSG, log_POS,
     "POS", "QLLff", "TimeUS,Lat,Lng,Alt,RelAlt"⟩,
   ⟨LOG_SIMSTATE_MSG, log_AHRS,
     "SIM", "QccCfLL", "TimeUS,Roll,Pitch,Yaw,Alt,Lat,Lng"⟩,
   ⟨LOG_EKF1_MSG, log_EKF1,
     "EKF1", "QccCffffffccc", "TimeUS,Roll,Pitch,Yaw,VN,VE,VD,PN,PE,PD,GX,GY,GZ"⟩,
   ⟨LOG_EKF2_MSG, log_EKF2,
     "EKF2", "Qbbbcchhhhhh", "TimeUS,Ratio,AZ1bias,AZ2bias,VWN,VWE,MN,ME,MD,MX,MY,MZ"⟩,
   ⟨LOG_EKF3_MSG, log_EKF3,
     "EKF3", "Qcccccchhhc", "TimeUS,IVN,IVE,IVD,IPN,IPE,IPD,IMX,IMY,IMZ,IVT"⟩,
   ⟨LOG_EKF4_MSG, log_EKF4,
     "EKF4", "QcccccccbbBBH", "TimeUS,SV,SP,SH,SMX,SMY,SMZ,SVT,OFN,EFE,FS,TS,SS"⟩,
   ⟨LOG_TERRAIN_MSG, log_TERRAIN,
     "TERR", "QBLLHffHH", "TimeUS,Status,Lat,Lng,Spacing,TerrH,CHeight,Pending,Loaded"⟩,
   ⟨LOG_UBX1_MSG, log_Ubx1,
     "UBX1", "QBHBBH", "TimeUS,Instance,noisePerMS,jamInd,aPower,agcCnt"⟩,
   ⟨LOG_UBX2_MSG, log_Ubx2,
     "UBX2", "QBbBbB", "TimeUS,Instance,ofsI,magI,ofsQ,magQ"⟩,
   ⟨LOG_UBX3_MSG, log_Ubx3,
     "UBX3", "QBfff", "TimeUS,Instance,hAcc,vAcc,sAcc"⟩,
   ⟨LOG_GPS_RAW_MSG, log_GPS_RAW,
     "GRAW", "QIHBBddfBbB", "TimeUS,WkMS,Week,numSV,sv,cpMes,prMes,doMes,mesQI,cno,lli"⟩,
   ⟨LOG_ESC1_MSG, log_Esc,
     "ESC1", "Qcccc", "TimeUS,RPM,Volt,Curr,Temp"⟩,
   ⟨LOG_ESC2_MSG, log_Esc,
     "ESC2", "Qcccc", "TimeUS,RPM,Volt,Curr,Temp"⟩,
   ⟨LOG_ESC3_MSG, log_Esc,
     "ESC3", "Qcccc", "TimeUS,RPM,Volt,Curr,Temp"⟩,
   ⟨LOG_ESC4_MSG, log_Esc,
     "ESC4", "Qcccc", "TimeUS,RPM,Volt,Curr,Temp"⟩,
   ⟨LOG_ESC5_MSG, log_Esc,
     "ESC5", "Qcccc", "TimeUS,RPM,Volt,Curr,Temp"⟩,
   ⟨LOG_ESC6_MSG, log_Esc,
     "ESC6", "Qcccc", "TimeUS,RPM,Volt,Curr,Temp"⟩,
   ⟨LOG_ESC7_MSG, log_Esc,
     "ESC7", "Qcccc", "TimeUS,RPM,Volt,Curr,Temp"⟩,
   ⟨LOG_ESC8_MSG, log_Esc,
     "ESC8", "Qcccc", "TimeUS,RPM,Volt,Curr,Temp"⟩,
   ⟨LOG_EKF5_MSG, log_EKF5,
     "EKF5", "QBhhhcccCC", "TimeUS,normInnov,FIX,FIY,AFI,HAGL,offset,RI,meaRng,errHAGL"⟩,
   ⟨LOG_COMPASS2_MSG, log_Compass,
     "MAG2", "QhhhhhhhhhB", "TimeUS,MagX,MagY,MagZ,OfsX,OfsY,OfsZ,MOfsX,MOfsY,MOfsZ,Health"⟩,
   ⟨LOG_COMPASS3_MSG, log_Compass,
     "MAG3", "QhhhhhhhhhB", "TimeUS,MagX,MagY,MagZ,OfsX,OfsY,OfsZ,MOfsX,MOfsY,MOfsZ,Health"⟩,
   ⟨LOG_ACC1_MSG, log_ACCEL,
     "ACC1", "QQfff", "TimeUS,SampleUS,AccX,AccY,AccZ"⟩,
   ⟨LOG_ACC2_MSG, log_ACCEL,
     "ACC2", "QQfff", "TimeUS,SampleUS,AccX,AccY,AccZ"⟩,
   ⟨LOG_ACC3_MSG, log_ACCEL,
     "ACC3", "QQfff", "TimeUS,SampleUS,AccX,AccY,AccZ"⟩,
   ⟨LOG_GYR1_MSG, log_GYRO,
     "GYR1", "QQfff", "TimeUS,SampleUS,GyrX,GyrY,GyrZ"⟩,
   ⟨LOG_GYR2_MSG, log_GYRO,
     "GYR2", "QQfff", "TimeUS,SampleUS,GyrX,GyrY,GyrZ"⟩,
   ⟨LOG_GYR3_MSG, log_GYRO,
     "GYR3", "QQfff", "TimeUS,SampleUS,GyrX,GyrY,GyrZ"⟩,
   ⟨LOG_PIDR_MSG, log_PID,
     "PIDR", "Qffffff", "TimeUS,Des,P,I,D,FF,AFF"⟩,
   ⟨LOG_PIDP_MSG, log_PID,
     "PIDP", "Qffffff", "TimeUS,Des,P,I,D,FF,AFF"⟩,
   ⟨LOG_PIDY_MSG, log_PID,
     "PIDY", "Qffffff", "TimeUS,Des,P,I,D,FF,AFF"⟩,
   ⟨LOG_PIDA_MSG, log_PID,
     "PIDA", "Qffffff", "TimeUS,Des,P,I,D,FF,AFF"⟩,
   ⟨LOG_BAR2_MSG, log_BARO,
     "BAR2", "Qffcf", "TimeUS,Alt,Press,Temp,CRt"⟩]

/-- The macro LOG_COMMON_STRUCTURES: base and extra messages when
HAL_CPU_CLASS >= HAL_CPU_CLASS_75, the base messages alone otherwise. The two
board constants come from the HAL headers and are parameters here. -/
def LOG_COMMON_STRUCTURES (HAL_CPU_CLASS HAL_CPU_CLASS_75 : Nat) : List Initialiser :=
  if HAL_CPU_CLASS ≥ HAL_CPU_CLASS_75 then LOG_BASE_STRUCTURES ++ LOG_EXTRA_STRUCTURES
  else LOG_BASE_STRUCTURES

/-- The whole common catalog: LOG_BASE_STRUCTURES followed by LOG_EXTRA_STRUCTURES. -/
def CATALOG : List Initialiser := LOG_BASE_STRUCTURES ++ LOG_EXTRA_STRUCTURES

/-! ## DataFlash_Class: the write gate -/

/-- The protected data members of DataFlash_Class. The pointer _structures is
represented by the table it points to. -/
structure DataFlash_Class where
  _structures : List LogStructure
  _num_types : Nat
  _writes_enabled : Bool
  log_write_started : Bool
  deriving DecidableEq, Repr

/-- The member `void EnableWrites(bool enable) { _writes_enabled = enable; }`. -/
def EnableWrites (s : DataFlash_Class) (enable : Bool) : DataFlash_Class :=
  { s with _writes_enabled := enable }

/-- The member `bool logging_started(void) const { return log_write_started; }`:
the returned value and the state after the call. -/
def logging_started (s : DataFlash_Class) : Bool × DataFlash_Class :=
  (s.log_write_started, s)

/-- The claim of position-by-position type agreement for one initialiser: the
types the table assigns to the format characters, in order, are the declared
types of the payload members of the record struct, in order. -/
def typesAgree (i : Initialiser) : Prop :=
  i.format.toList.map formatCharType = (payload i.record).map fun m => some m.type

instance (i : Initialiser) : Decidable (typesAgree i) := by
  unfold typesAgree
  infer_instance

/-- Positions k at which the type the table assigns to the k-th format
character is not the declared type of the k-th payload member. -/
def typeMismatches (i : Initialiser) : List Nat :=
  (List.range (max i.format.length (payload i.record).length)).filter fun k =>
    (i.format.toList[k]?).map formatCharType ≠ ((payload i.record)[k]?).map fun m => some m.type

/-- Byte offset of the k-th payload member of a record struct: the offset of
member k counted after the three header members. -/
def payloadOffset (s : Struct) (k : Nat) : Nat :=
  offsetOf s (LOG_PACKET_HEADER.length + k)

/-- The first of the comma-separated labels of a labels string. -/
def firstLabel (labels : String) : String :=
  String.mk (labels.toList.takeWhile fun c => c ≠ ',')

/-! ## Theorems -/

/-- The table and the list of its characters agree: a character has an entry
exactly when it is listed. -/
theorem formatCharType_isSome_iff (c : Char) :
    (formatCharType c).isSome = true ↔ c ∈ FORMAT_CHARS := by
  constructor
  · intro h
    unfold formatCharType at h
    split at h <;> first | decide | simp at h
  · intro h
    simp only [FORMAT_CHARS, List.mem_cons, List.mem_singleton, List.mem_nil_iff, or_false] at h
    rcases h with h | h | h | h | h | h | h | h | h | h | h | h | h | h | h | h | h | h | h <;>
      subst h <;> rfl

/-- C1: every descriptor of LOG_BASE_STRUCTURES and LOG_EXTRA_STRUCTURES uses
only the 19 characters of the format table, and its msg_len, the packed size of
the record struct it names, is 3 plus the sum of the widths of its format
characters; the widths are b, B, M = 1; h, H, c, C = 2; i, I, e, E, L, f = 4;
d, q, Q = 8; n = 4; N = 16; Z = 64. -/
theorem msg_len_eq_three_plus_format_width (i : Initialiser) (hi : i ∈ CATALOG) :
    (∀ c ∈ i.format.toList, c ∈ FORMAT_CHARS) ∧
    i.toLogStructure.msg_len = sizeofPacked i.record ∧
    i.toLogStructure.msg_len = 3 + formatWidth i.toLogStructure.format ∧
    FORMAT_CHARS.length = 19 ∧
    (['b', 'B', 'M'].map formatCharWidth = [1, 1, 1]) ∧
    (['h', 'H', 'c', 'C'].map formatCharWidth = [2, 2, 2, 2]) ∧
    (['i', 'I', 'e', 'E', 'L', 'f'].map formatCharWidth = [4, 4, 4, 4, 4, 4]) ∧
    (['d', 'q', 'Q'].map formatCharWidth = [8, 8, 8]) ∧
    (['n', 'N', 'Z'].map formatCharWidth = [4, 16, 64]) := by
  revert i
  decide

/-- Witness for C1 at the GPS descriptor: its msg_len is 49 = 3 + 46. -/
theorem msg_len_eq_three_plus_format_width_witness :
    (⟨LOG_GPS_MSG, log_GPS, "GPS", "QBIHBcLLeeEef",
        "TimeUS,Status,GMS,GWk,NSats,HDop,Lat,Lng,RAlt,Alt,Spd,GCrs,VZ"⟩ : Initialiser) ∈ CATALOG ∧
    sizeofPacked log_GPS = 49 ∧
    sizeofPacked log_GPS = 3 + formatWidth "QBIHBcLLeeEef" :=
  ⟨by decide, by decide,
    ((msg_len_eq_three_plus_format_width
      ⟨LOG_GPS_MSG, log_GPS, "GPS", "QBIHBcLLeeEef",
        "TimeUS,Status,GMS,GWk,NSats,HDop,Lat,Lng,RAlt,Alt,Spd,GCrs,VZ"⟩ (by decide)).2.1.symm.trans
     (msg_len_eq_three_plus_format_width
      ⟨LOG_GPS_MSG, log_GPS, "GPS", "QBIHBcLLeeEef",
        "TimeUS,Status,GMS,GWk,NSats,HDop,Lat,Lng,RAlt,Alt,Spd,GCrs,VZ"⟩ (by decide)).2.2.1)⟩

/-- C2: for every descriptor of LOG_BASE_STRUCTURES and LOG_EXTRA_STRUCTURES the
length of the format string is the number of comma-separated labels of the
labels string (number of commas plus one). -/
theorem format_length_eq_label_count (i : Initialiser) (hi : i ∈ CATALOG) :
    i.toLogStructure.format.length = labelCount i.toLogStructure.labels ∧
    labelCount i.toLogStructure.labels = i.toLogStructure.labels.toList.count ',' + 1 := by
  revert i
  decide

/-- Witness for C2 at the RCIN descriptor: 15 format characters, 15 labels. -/
theorem format_length_eq_label_count_witness :
    (⟨LOG_RCIN_MSG, log_RCIN, "RCIN", "Qhhhhhhhhhhhhhh",
        "TimeUS,C1,C2,C3,C4,C5,C6,C7,C8,C9,C10,C11,C12,C13,C14"⟩ : Initialiser) ∈ CATALOG ∧
    "Qhhhhhhhhhhhhhh".length = labelCount "TimeUS,C1,C2,C3,C4,C5,C6,C7,C8,C9,C10,C11,C12,C13,C14" :=
  ⟨by decide,
    (format_length_eq_label_count
      ⟨LOG_RCIN_MSG, log_RCIN, "RCIN", "Qhhhhhhhhhhhhhh",
        "TimeUS,C1,C2,C3,C4,C5,C6,C7,C8,C9,C10,C11,C12,C13,C14"⟩ (by decide)).1⟩

/-- C3: the msg_type ids of the descriptors of LOG_BASE_STRUCTURES together with
LOG_EXTRA_STRUCTURES are pairwise distinct, and so are those of
LOG_COMMON_STRUCTURES in either build configuration. -/
theorem catalog_msg_types_pairwise_distinct :
    (CATALOG.map fun i => i.toLogStructure.msg_type).Nodup ∧
    (∀ i ∈ CATALOG, ∀ j ∈ CATALOG,
      i.toLogStructure.msg_type = j.toLogStructure.msg_type → i = j) ∧
    ∀ HAL_CPU_CLASS HAL_CPU_CLASS_75 : Nat,
      ((LOG_COMMON_STRUCTURES HAL_CPU_CLASS HAL_CPU_CLASS_75).map
        fun i => i.toLogStructure.msg_type).Nodup := by
  refine ⟨by decide, by decide, ?_⟩
  intro c c75
  unfold LOG_COMMON_STRUCTURES
  split <;> decide

/-- C4: the format characters of the RCIN descriptor after the timestamp are h,
which the table gives as int16_t, while the members chan1 .. chan14 of log_RCIN
are declared uint16_t; over the whole catalog the descriptors with such a
position are GPS, RCIN, RCOU, GPS2 and GRAW, at the positions listed, and the
remaining 49 descriptors agree with their struct at every position. -/
theorem rcin_format_char_type_differs_from_member_type :
    (⟨LOG_RCIN_MSG, log_RCIN, "RCIN", "Qhhhhhhhhhhhhhh",
        "TimeUS,C1,C2,C3,C4,C5,C6,C7,C8,C9,C10,C11,C12,C13,C14"⟩ : Initialiser) ∈ CATALOG ∧
    "Qhhhhhhhhhhhhhh".toList[1]? = some 'h' ∧
    formatCharType 'h' = some CType.int16_t ∧
    (payload log_RCIN)[1]? = some ⟨CType.uint16_t, "chan1"⟩ ∧
    ((CATALOG.filter fun i => typeMismatches i ≠ []).map fun i => (i.name, typeMismatches i)) =
      [("GPS", [5]),
       ("RCIN", [1, 2, 3, 4, 5, 6, 7, 8, 9, 10, 11, 12, 13, 14]),
       ("RCOU", [1, 2, 3, 4, 5, 6, 7, 8, 9, 10, 11, 12]),
       ("GPS2", [5]),
       ("GRAW", [1, 2, 8])] ∧
    (CATALOG.filter fun i => typesAgree i).length = 49 ∧
    (CATALOG.filter fun i => ¬ typesAgree i).map (fun i => i.name) =
      ["GPS", "RCIN", "RCOU", "GPS2", "GRAW"] := by
  decide

/-- C5: LOG_FORMAT_MSG is 128; log_Format is the 3-byte header followed by
type:u8, length:u8, name:char[4], format:char[16], labels:char[64], 89 bytes in
all; the first entry of LOG_BASE_STRUCTURES is the FMT descriptor with msg_type
128, msg_len 89 and format BBnNZ, whose characters have widths 1, 1, 4, 16, 64
and the types of the payload members of log_Format. -/
theorem fmt_descriptor_describes_log_Format :
    LOG_FORMAT_MSG = 128 ∧
    sizeofPacked LOG_PACKET_HEADER = 3 ∧
    log_Format.take 3 = LOG_PACKET_HEADER ∧
    ((payload log_Format).map fun m => (m.name, m.type)) =
      [("type", CType.uint8_t), ("length", CType.uint8_t), ("name", CType.charArray 4),
       ("format", CType.charArray 16), ("labels", CType.charArray 64)] ∧
    sizeofPacked log_Format = 89 ∧
    LOG_BASE_STRUCTURES.head?.map Initialiser.toLogStructure =
      some ⟨128, 89, "FMT", "BBnNZ", "Type,Length,Name,Format,Columns"⟩ ∧
    LOG_BASE_STRUCTURES.head?.map (fun i => i.record) = some log_Format ∧
    CATALOG.head?.map (fun i => i.name) = some "FMT" ∧
    "BBnNZ".toList.map formatCharWidth = [1, 1, 4, 16, 64] ∧
    "BBnNZ".toList.map formatCharType = (payload log_Format).map fun m => some m.type := by
  decide

/-- C6: for every id in 0..255 the header built by LOG_PACKET_HEADER_INIT(id) is
the three bytes 0xA3, 0x95, id in that order, and the header members occupy
the first 3 bytes of log_Header and of every record struct. -/
theorem packet_header_init_bytes (id : Nat) (hid : id ≤ 255) :
    (LOG_PACKET_HEADER_INIT id).bytes = [0xA3, 0x95, id] ∧
    (LOG_PACKET_HEADER_INIT id).head1 = HEAD_BYTE1 ∧ HEAD_BYTE1 = 0xA3 ∧
    (LOG_PACKET_HEADER_INIT id).head2 = HEAD_BYTE2 ∧ HEAD_BYTE2 = 0x95 ∧
    (LOG_PACKET_HEADER_INIT id).msgid = id ∧
    sizeofPacked log_Header = 3 ∧
    sizeofPacked LOG_PACKET_HEADER = 3 ∧
    (∀ s ∈ RECORD_STRUCTS, s.take 3 = LOG_PACKET_HEADER ∧ offsetOf s 0 = 0 ∧ offsetOf s 3 = 3) ∧
    (∀ i ∈ CATALOG, i.record.take 3 = LOG_PACKET_HEADER ∧ offsetOf i.record 3 = 3) := by
  have hmod : id % 256 = id := Nat.mod_eq_of_lt (by omega)
  refine ⟨?_, ?_, by decide, ?_, by decide, ?_, by decide, by decide, by decide, by decide⟩
  · simp [LOG_PACKET_HEADER_INIT, HeaderInit.bytes, toUint8, HEAD_BYTE1, HEAD_BYTE2, hmod]
  · simp [LOG_PACKET_HEADER_INIT, toUint8, HEAD_BYTE1]
  · simp [LOG_PACKET_HEADER_INIT, toUint8, HEAD_BYTE2]
  · simp [LOG_PACKET_HEADER_INIT, toUint8, hmod]

/-- Witness for C6 at id = LOG_GPS_MSG = 130. -/
theorem packet_header_init_bytes_witness :
    LOG_GPS_MSG ≤ 255 ∧ (LOG_PACKET_HEADER_INIT LOG_GPS_MSG).bytes = [163, 149, 130] :=
  ⟨by decide, (packet_header_init_bytes LOG_GPS_MSG (by decide)).1⟩

/-- The id constants are the integers 128 .. 182, defined in increasing order. -/
theorem LOG_MSG_IDS_eq_range : LOG_MSG_IDS = List.range' 128 55 := by
  decide

/-- C7: every descriptor of LOG_BASE_STRUCTURES and LOG_EXTRA_STRUCTURES has a
msg_type in 128..182 and none has one in 0..100 or in 200..220; the LOG_*_MSG
constants are pairwise distinct and are exactly the integers 128..182. -/
theorem catalog_msg_types_in_common_range :
    (∀ i ∈ CATALOG,
      (128 ≤ i.toLogStructure.msg_type ∧ i.toLogStructure.msg_type ≤ 182) ∧
      ¬ i.toLogStructure.msg_type ≤ 100 ∧
      ¬ (200 ≤ i.toLogStructure.msg_type ∧ i.toLogStructure.msg_type ≤ 220)) ∧
    LOG_MSG_IDS.Nodup ∧
    (∀ n : Nat, n ∈ LOG_MSG_IDS ↔ 128 ≤ n ∧ n ≤ 182) := by
  refine ⟨by decide, by decide, ?_⟩
  intro n
  rw [LOG_MSG_IDS_eq_range, List.mem_range'_1]
  omega

/-- Witness for C7 at the last descriptor of the catalog, BAR2 with id 163. -/
theorem catalog_msg_types_in_common_range_witness :
    (⟨LOG_BAR2_MSG, log_BARO, "BAR2", "Qffcf", "TimeUS,Alt,Press,Temp,CRt"⟩ : Initialiser) ∈ CATALOG ∧
    (128 ≤ toUint8 LOG_BAR2_MSG ∧ toUint8 LOG_BAR2_MSG ≤ 182) ∧
    LOG_PIDA_MSG ∈ LOG_MSG_IDS :=
  ⟨by decide,
    (catalog_msg_types_in_common_range.1
      ⟨LOG_BAR2_MSG, log_BARO, "BAR2", "Qffcf", "TimeUS,Alt,Press,Temp,CRt"⟩ (by decide)).1,
    (catalog_msg_types_in_common_range.2.2 LOG_PIDA_MSG).2 (by decide)⟩

/-- C8 fails as stated: LOG_ATRP_MSG = 147 is one of the common message-id
constants, and no descriptor of LOG_BASE_STRUCTURES or LOG_EXTRA_STRUCTURES has
msg_type 147. -/
theorem atrp_msg_has_no_descriptor :
    LOG_ATRP_MSG ∈ LOG_MSG_IDS ∧ LOG_ATRP_MSG = 147 ∧
    ¬ ∃ i ∈ CATALOG, i.toLogStructure.msg_type = LOG_ATRP_MSG := by
  decide

/-- C8 as amended: a common message-id constant has a descriptor in
LOG_BASE_STRUCTURES together with LOG_EXTRA_STRUCTURES exactly when it is not
LOG_ATRP_MSG. -/
theorem msg_id_has_descriptor_iff_not_atrp (id : Nat) (hid : id ∈ LOG_MSG_IDS) :
    (∃ i ∈ CATALOG, i.toLogStructure.msg_type = id) ↔ id ≠ LOG_ATRP_MSG := by
  revert id
  decide

/-- Witness for amended C8 at LOG_POS_MSG = 178, described by the POS descriptor. -/
theorem msg_id_has_descriptor_iff_not_atrp_witness :
    LOG_POS_MSG ∈ LOG_MSG_IDS ∧ ∃ i ∈ CATALOG, i.toLogStructure.msg_type = LOG_POS_MSG :=
  ⟨by decide, (msg_id_has_descriptor_iff_not_atrp LOG_POS_MSG (by decide)).2 (by decide)⟩

/-- C9: for every descriptor of LOG_BASE_STRUCTURES and LOG_EXTRA_STRUCTURES the
id and the struct size are at most 255, so msg_type and msg_len hold them
without truncation; the name has at most 4 characters, the format string at
most 16 and the labels string at most 64. -/
theorem descriptor_field_limits (i : Initialiser) (hi : i ∈ CATALOG) :
    i.id ≤ 255 ∧ i.toLogStructure.msg_type = i.id ∧
    sizeofPacked i.record ≤ 255 ∧ i.toLogStructure.msg_len = sizeofPacked i.record ∧
    i.toLogStructure.name.length ≤ 4 ∧
    i.toLogStructure.format.length ≤ 16 ∧
    i.toLogStructure.labels.length ≤ 64 := by
  revert i
  decide

/-- Witness for C9 at the IMU descriptor, whose labels string has 63 characters. -/
theorem descriptor_field_limits_witness :
    (⟨LOG_IMU_MSG, log_IMU, "IMU", "QffffffIIfBB",
        "TimeUS,GyrX,GyrY,GyrZ,AccX,AccY,AccZ,ErrG,ErrA,Temp,GyHlt,AcHlt"⟩ : Initialiser) ∈ CATALOG ∧
    "TimeUS,GyrX,GyrY,GyrZ,AccX,AccY,AccZ,ErrG,ErrA,Temp,GyHlt,AcHlt".length ≤ 64 :=
  ⟨by decide,
    (descriptor_field_limits
      ⟨LOG_IMU_MSG, log_IMU, "IMU", "QffffffIIfBB",
        "TimeUS,GyrX,GyrY,GyrZ,AccX,AccY,AccZ,ErrG,ErrA,Temp,GyHlt,AcHlt"⟩ (by decide)).2.2.2.2.2.2⟩

/-- C10: EnableWrites(b) changes _writes_enabled to b and nothing else, so a
repeated call with the same value changes nothing and the last call determines
the gate; logging_started returns log_write_started and leaves the state as it
was. -/
theorem EnableWrites_frame (s : DataFlash_Class) (b : Bool) :
    EnableWrites s b =
      ⟨s._structures, s._num_types, b, s.log_write_started⟩ ∧
    (EnableWrites s b)._writes_enabled = b ∧
    (EnableWrites s b)._structures = s._structures ∧
    (EnableWrites s b)._num_types = s._num_types ∧
    (EnableWrites s b).log_write_started = s.log_write_started ∧
    EnableWrites (EnableWrites s b) b = EnableWrites s b ∧
    (∀ b2 : Bool, EnableWrites (EnableWrites s b) b2 = EnableWrites s b2) ∧
    (s._writes_enabled = b → EnableWrites s b = s) ∧
    (logging_started s).1 = s.log_write_started ∧
    (logging_started s).2 = s ∧
    (logging_started (EnableWrites s b)).1 = s.log_write_started := by
  refine ⟨rfl, rfl, rfl, rfl, rfl, rfl, fun _ => rfl, ?_, rfl, rfl, rfl⟩
  intro h
  cases s
  simp only [EnableWrites] at *
  rw [h]

/-- C11: for every descriptor of LOG_BASE_STRUCTURES and LOG_EXTRA_STRUCTURES
the record struct has one payload member per format character, and at every
position k the byte offset of the k-th payload member is 3 plus the sum of the
table widths of the first k format characters, and the size of that member is
the table width of the k-th character. -/
theorem payload_offsets_follow_format (i : Initialiser) (hi : i ∈ CATALOG) :
    (payload i.record).length = i.toLogStructure.format.length ∧
    ∀ k < i.toLogStructure.format.length,
      payloadOffset i.record k =
        3 + ((i.toLogStructure.format.toList.take k).map formatCharWidth).sum ∧
      ((payload i.record)[k]?).map (fun m => m.type.sizeof) =
        (i.toLogStructure.format.toList[k]?).map formatCharWidth := by
  revert i
  decide

/-- Witness for C11 at the GPS descriptor, position 5: hdop lies at byte 19 and
is 2 bytes wide, as the character c says. -/
theorem payload_offsets_follow_format_witness :
    (⟨LOG_GPS_MSG, log_GPS, "GPS", "QBIHBcLLeeEef",
        "TimeUS,Status,GMS,GWk,NSats,HDop,Lat,Lng,RAlt,Alt,Spd,GCrs,VZ"⟩ : Initialiser) ∈ CATALOG ∧
    payloadOffset log_GPS 5 = 19 ∧
    payloadOffset log_GPS 5 = 3 + (("QBIHBcLLeeEef".toList.take 5).map formatCharWidth).sum ∧
    ((payload log_GPS)[5]?).map (fun m => m.type.sizeof) =
      ("QBIHBcLLeeEef".toList[5]?).map formatCharWidth :=
  ⟨by decide, by decide,
    ((payload_offsets_follow_format
      ⟨LOG_GPS_MSG, log_GPS, "GPS", "QBIHBcLLeeEef",
        "TimeUS,Status,GMS,GWk,NSats,HDop,Lat,Lng,RAlt,Alt,Spd,GCrs,VZ"⟩ (by decide)).2 5
      (by decide)).1,
    ((payload_offsets_follow_format
      ⟨LOG_GPS_MSG, log_GPS, "GPS", "QBIHBcLLeeEef",
        "TimeUS,Status,GMS,GWk,NSats,HDop,Lat,Lng,RAlt,Alt,Spd,GCrs,VZ"⟩ (by decide)).2 5
      (by decide)).2⟩

/-- C12: a descriptor of LOG_BASE_STRUCTURES and LOG_EXTRA_STRUCTURES other than
FMT has a format string beginning with Q, the first label TimeUS, and the
uint64 member time_us as first payload member of its record struct, at byte
offset 3; the FMT descriptor has none of these, and it is the only descriptor
with the id LOG_FORMAT_MSG. -/
theorem descriptors_time_stamped_first (i : Initialiser) (hi : i ∈ CATALOG) :
    (i.toLogStructure.name = "FMT" ↔ i.toLogStructure.msg_type = LOG_FORMAT_MSG) ∧
    (i.toLogStructure.format.toList.head? = some 'Q' ↔ i.toLogStructure.name ≠ "FMT") ∧
    (firstLabel i.toLogStructure.labels = "TimeUS" ↔ i.toLogStructure.name ≠ "FMT") ∧
    ((payload i.record).head? = some ⟨CType.uint64_t, "time_us"⟩ ↔
      i.toLogStructure.name ≠ "FMT") ∧
    ((∃ m ∈ i.record, m.name = "time_us") ↔ i.toLogStructure.name ≠ "FMT") ∧
    payloadOffset i.record 0 = 3 ∧
    (CATALOG.filter fun j => j.toLogStructure.name = "FMT").length = 1 := by
  revert i
  decide

/-- Witness for C12 at the MODE descriptor. -/
theorem descriptors_time_stamped_first_witness :
    (⟨LOG_MODE_MSG, log_Mode, "MODE", "QMB", "TimeUS,Mode,ModeNum"⟩ : Initialiser) ∈ CATALOG ∧
    "QMB".toList.head? = some 'Q' ∧
    firstLabel "TimeUS,Mode,ModeNum" = "TimeUS" ∧
    (payload log_Mode).head? = some ⟨CType.uint64_t, "time_us"⟩ :=
  ⟨by decide,
    (descriptors_time_stamped_first
      ⟨LOG_MODE_MSG, log_Mode, "MODE", "QMB", "TimeUS,Mode,ModeNum"⟩ (by decide)).2.1.2 (by decide),
    (descriptors_time_stamped_first
      ⟨LOG_MODE_MSG, log_Mode, "MODE", "QMB", "TimeUS,Mode,ModeNum"⟩ (by decide)).2.2.1.2 (by decide),
    (descriptors_time_stamped_first
      ⟨LOG_MODE_MSG, log_Mode, "MODE", "QMB", "TimeUS,Mode,ModeNum"⟩ (by decide)).2.2.2.1.2
      (by decide)⟩

end DataFlash
